import Mathlib

/-!
Verification of the mail-mind-ai email classifier
(`backend/app/agents/classifier.py`) against its natural-language
specification.

The Python code is shallowly embedded:
* `re`-based substitution and search are modelled by a small backtracking
  regular-expression engine (`RE`, `mrun`, `regexSub`, `hasMatch`) that
  mirrors Python's leftmost-first, greedy-preference matching for the
  pattern constructs actually used by the classifier (character classes,
  concatenation, ordered alternation, bounded/unbounded greedy repetition
  and the `\b` word-boundary assertion);
* Python `float` literals are modelled as rationals (every confidence in
  the code is a short decimal literal, and the only arithmetic performed
  on one is `min(1.0, c + 0.1)`);
* the external OpenAI call is modelled as an explicit outcome parameter:
  the orchestrator takes the remote adapter as a function argument and the
  adapter itself takes the transport outcome and the JSON-parse outcome as
  arguments, while every line of the classifier's own control flow is
  translated directly.

`mrun` takes a fuel argument so that all definitions are structurally
recursive and kernel-computable; the fuel computed by `fuelFor` bounds the
backtracking depth generously (every theorem below is stated against the
fuelled functions themselves, so no theorem depends on a fuel-sufficiency
assumption).
-/

namespace MailMind

/-- Python `\w` word characters in the ASCII range: letters, digits, underscore. -/
def isWordChar (c : Char) : Bool := c.isAlphanum || c == '_'

/-- Python `\s` whitespace characters. -/
def pySpace (c : Char) : Bool :=
  c == ' ' || c == '\t' || c == '\n' || c == '\r' || c == '\x0b' || c == '\x0c'

/-- Syntax of the regular expressions used in classifier.py: the empty
pattern, a single-character class, concatenation, ordered alternation,
greedy repetition `{m,n}` (`n = none` meaning unbounded) and the `\b`
word-boundary assertion. -/
inductive RE where
  | eps : RE
  | cls : (Char → Bool) → RE
  | seq : RE → RE → RE
  | alt : RE → RE → RE
  | rep : Nat → Option Nat → RE → RE
  | wb : RE

def isWordOpt : Option Char → Bool
  | none => false
  | some c => isWordChar c

/-- Backtracking matcher.  `mrun fuel r prev l` returns, in Python's
backtracking preference order (greedy repetitions longest first, left
alternative first), the list of ways `r` can match a prefix of `l`; each
entry is `(consumed, last consumed char or prev, remaining suffix)`.
`prev` is the character immediately before `l` in the scanned text (used
by `\b`).  Repetition is unfolded one step per fuel unit. -/
def mrun : Nat → RE → Option Char → List Char → List (Nat × Option Char × List Char)
  | 0, _, _, _ => []
  | Nat.succ fuel, r, prev, l =>
    match r with
    | .eps => [(0, prev, l)]
    | .cls f =>
      match l with
      | [] => []
      | c :: rest => if f c then [(1, some c, rest)] else []
    | .wb => if isWordOpt prev != isWordOpt l.head? then [(0, prev, l)] else []
    | .seq a b =>
      (mrun fuel a prev l).flatMap fun x =>
        (mrun fuel b x.2.1 x.2.2).map fun y => (x.1 + y.1, y.2.1, y.2.2)
    | .alt a b => mrun fuel a prev l ++ mrun fuel b prev l
    | .rep m n r' =>
      match m, n with
      | 0, some 0 => [(0, prev, l)]
      | 0, some (Nat.succ h) =>
        mrun fuel (.alt (.seq r' (.rep 0 (some h) r')) .eps) prev l
      | 0, none =>
        mrun fuel (.alt (.seq r' (.rep 0 none r')) .eps) prev l
      | Nat.succ m', h =>
        mrun fuel (.seq r' (.rep m' (h.map (· - 1)) r')) prev l

/-- Size of a pattern, used only to compute a generous fuel bound. -/
def sizeRE : RE → Nat
  | .eps => 1
  | .cls _ => 1
  | .wb => 1
  | .seq a b => sizeRE a + sizeRE b + 1
  | .alt a b => sizeRE a + sizeRE b + 1
  | .rep m n r => sizeRE r + m + n.getD 0 + 4

/-- Fuel bound for matching `r` against `l`: each repetition iteration of a
pattern that consumes at least one character unfolds through a constant
number of fuel levels, so this quadratic bound is ample for every pattern
in classifier.py. -/
def fuelFor (r : RE) (l : List Char) : Nat := (sizeRE r + 8) * (l.length + 8)

/-- First match (in preference order) of `r` at the start of `l`, returning
the number of characters consumed, like an anchored Python `re.match`. -/
def matchHere (r : RE) (prev : Option Char) (l : List Char) : Option Nat :=
  ((mrun (fuelFor r l) r prev l).head?).map (·.1)

/-- Does `r` match anywhere in the text (Python `re.search`)?  Scans every
position, including the empty suffix at the end. -/
def searchAux : RE → Option Char → List Char → Bool
  | r, prev, [] => !(mrun (fuelFor r []) r prev []).isEmpty
  | r, prev, c :: rest =>
    !(mrun (fuelFor r (c :: rest)) r prev (c :: rest)).isEmpty || searchAux r (some c) rest

def hasMatch (r : RE) (s : String) : Bool := searchAux r none s.data

/-- Python `re.sub`: scan left to right; at each position take the first
(backtracking-preferred) match, emit the replacement token and resume just
after the match, with `\b`-context taken from the original text.  The fuel
is the length of the scanned list, which suffices because every accepted
match consumes at least one character. -/
def subAux (r : RE) (tok : List Char) : Nat → Option Char → List Char → List Char
  | 0, _, l => l
  | Nat.succ _, _, [] => []
  | Nat.succ fuel, prev, c :: rest =>
    match matchHere r prev (c :: rest) with
    | some (Nat.succ n) =>
      tok ++ subAux r tok fuel (((c :: rest).take (n + 1)).getLast?) ((c :: rest).drop (n + 1))
    | _ => c :: subAux r tok fuel (some c) rest

def regexSub (r : RE) (tok : String) (s : String) : String :=
  String.mk (subAux r tok.data s.data.length none s.data)

theorem regexSub_empty (r : RE) (tok : String) : regexSub r tok "" = "" := rfl

theorem subAux_of_no_match (r : RE) (tok : List Char) :
    ∀ (l : List Char) (fuel : Nat) (prev : Option Char),
      l.length ≤ fuel → searchAux r prev l = false → subAux r tok fuel prev l = l := by
  intro l
  induction l with
  | nil =>
    intro fuel prev _ _
    cases fuel <;> rfl
  | cons c rest ih =>
    intro fuel prev hf hs
    cases fuel with
    | zero => simp at hf
    | succ fuel =>
      have hs' : ((mrun (fuelFor r (c :: rest)) r prev (c :: rest)).isEmpty = true)
          ∧ searchAux r (some c) rest = false := by
        simpa [searchAux] using hs
      have hnil : mrun (fuelFor r (c :: rest)) r prev (c :: rest) = [] :=
        List.isEmpty_iff.mp hs'.1
      have hmh : matchHere r prev (c :: rest) = none := by
        simp [matchHere, hnil]
      simp only [subAux, hmh]
      have := ih fuel (some c) (by simpa using Nat.lt_succ_iff.mp (Nat.lt_of_lt_of_le (Nat.lt_succ_self _) (by simpa using hf))) hs'.2
      simp [this]

theorem regexSub_of_no_match (r : RE) (tok : String) (s : String)
    (h : hasMatch r s = false) : regexSub r tok s = s := by
  unfold regexSub
  rw [subAux_of_no_match r tok.data s.data s.data.length none le_rfl h]

/-! ### Pattern constructors -/

def rlit (c : Char) : RE := .cls (fun x => x == c)

def rcat (rs : List RE) : RE := rs.foldr RE.seq .eps

def ralts : List RE → RE
  | [] => RE.eps
  | [r] => r
  | r :: s :: rs => .alt r (ralts (s :: rs))

def rstr (s : String) : RE := rcat (s.data.map rlit)

/-- Greedy `r?`. -/
def ropt (r : RE) : RE := .rep 0 (some 1) r

/-- Greedy `r+`. -/
def rplus (r : RE) : RE := .rep 1 none r

/-- Greedy `r{m,}`. -/
def rmin (m : Nat) (r : RE) : RE := .rep m none r

/-- Greedy `r{m,n}`. -/
def rbetween (m n : Nat) (r : RE) : RE := .rep m (some n) r

/-- Greedy `r{n}`. -/
def rexact (n : Nat) (r : RE) : RE := .rep n (some n) r

def rdigit : RE := .cls Char.isDigit

/-! ### The PII patterns of `redact_pii` (classifier.py lines 50-74),
in source order. -/

/-- `\b[A-Za-z0-9._%+-]+@[A-Za-z0-9.-]+\.[A-Z|a-z]{2,}\b` (the source's
character class `[A-Z|a-z]` literally contains `|`). -/
def emailPat : RE := rcat [.wb,
  rplus (.cls fun c => c.isAlphanum || c == '.' || c == '_' || c == '%' || c == '+' || c == '-'),
  rlit '@',
  rplus (.cls fun c => c.isAlphanum || c == '.' || c == '-'),
  rlit '.',
  rmin 2 (.cls fun c => c.isAlpha || c == '|'),
  .wb]

/-- `\b\d{3}[-.]?\d{3}[-.]?\d{4}\b`. -/
def phoneDashPat : RE := rcat [.wb,
  rexact 3 rdigit, ropt (.cls fun c => c == '-' || c == '.'),
  rexact 3 rdigit, ropt (.cls fun c => c == '-' || c == '.'),
  rexact 4 rdigit, .wb]

/-- `\b\(\d{3}\)\s?\d{3}[-.]?\d{4}\b`. -/
def phoneParenPat : RE := rcat [.wb,
  rlit '(', rexact 3 rdigit, rlit ')', ropt (.cls pySpace),
  rexact 3 rdigit, ropt (.cls fun c => c == '-' || c == '.'),
  rexact 4 rdigit, .wb]

/-- `\b\+\d{1,3}[-.\s]?\d{3,4}[-.\s]?\d{3,4}[-.\s]?\d{3,4}\b`. -/
def phoneIntlPat : RE := rcat [.wb,
  rlit '+', rbetween 1 3 rdigit,
  ropt (.cls fun c => c == '-' || c == '.' || pySpace c),
  rbetween 3 4 rdigit,
  ropt (.cls fun c => c == '-' || c == '.' || pySpace c),
  rbetween 3 4 rdigit,
  ropt (.cls fun c => c == '-' || c == '.' || pySpace c),
  rbetween 3 4 rdigit, .wb]

def isHexChar (c : Char) : Bool :=
  c.isDigit || (97 ≤ c.toNat && c.toNat ≤ 102) || (65 ≤ c.toNat && c.toNat ≤ 70)

/-- `http[s]?://(?:[a-zA-Z]|[0-9]|[$-_@.&+]|[!*\\(\\),]|(?:%[0-9a-fA-F][0-9a-fA-F]))+`;
the class `[$-_@.&+]` is the ASCII range from 36 (`$`) to 95 (`_`) plus
`@.&+`, and `[!*\\(\\),]` contains a literal backslash. -/
def urlPat : RE := rcat [rstr "http", ropt (rlit 's'), rstr "://",
  rplus (ralts [
    .cls Char.isAlpha,
    .cls Char.isDigit,
    .cls (fun c => (36 ≤ c.toNat && c.toNat ≤ 95) || c == '@' || c == '.' || c == '&' || c == '+'),
    .cls (fun c => c == '!' || c == '*' || c == '\\' || c == '(' || c == ')' || c == ','),
    rcat [rlit '%', .cls isHexChar, .cls isHexChar]])]

/-- `\b\d{4}[-\s]?\d{4}[-\s]?\d{4}[-\s]?\d{4}\b`. -/
def cardPat : RE := rcat [.wb,
  rexact 4 rdigit, ropt (.cls fun c => c == '-' || pySpace c),
  rexact 4 rdigit, ropt (.cls fun c => c == '-' || pySpace c),
  rexact 4 rdigit, ropt (.cls fun c => c == '-' || pySpace c),
  rexact 4 rdigit, .wb]

/-- `\b\d{3}-\d{2}-\d{4}\b`. -/
def ssnPat : RE := rcat [.wb,
  rexact 3 rdigit, rlit '-', rexact 2 rdigit, rlit '-', rexact 4 rdigit, .wb]

/-- `\b(Mr|Mrs|Ms|Dr|Prof)\.?\s+[A-Z][a-z]+(?:\s+[A-Z][a-z]+)?\b`. -/
def namePat : RE := rcat [.wb,
  ralts [rstr "Mr", rstr "Mrs", rstr "Ms", rstr "Dr", rstr "Prof"],
  ropt (rlit '.'), rplus (.cls pySpace),
  .cls Char.isUpper, rplus (.cls Char.isLower),
  ropt (rcat [rplus (.cls pySpace), .cls Char.isUpper, rplus (.cls Char.isLower)]),
  .wb]

/-- `\b\d+\s+[A-Za-z\s]+(?:Street|St|Avenue|Ave|Road|Rd|Boulevard|Blvd|Drive|Dr|Lane|Ln)\b`. -/
def addrPat : RE := rcat [.wb,
  rplus rdigit, rplus (.cls pySpace),
  rplus (.cls fun c => c.isAlpha || pySpace c),
  ralts [rstr "Street", rstr "St", rstr "Avenue", rstr "Ave", rstr "Road", rstr "Rd",
         rstr "Boulevard", rstr "Blvd", rstr "Drive", rstr "Dr", rstr "Lane", rstr "Ln"],
  .wb]

/-- The substitution sequence of `redact_pii`, in source order, paired with
the fixed replacement tokens. -/
def redactRules : List (RE × String) :=
  [(emailPat, "[EMAIL]"), (phoneDashPat, "[PHONE]"), (phoneParenPat, "[PHONE]"),
   (phoneIntlPat, "[PHONE]"), (urlPat, "[URL]"), (cardPat, "[CARD]"),
   (ssnPat, "[SSN]"), (namePat, "[NAME]"), (addrPat, "[ADDRESS]")]

/-- classifier.py `redact_pii` (lines 42-76): `if not text: return ""`,
then the nine `re.sub` substitutions in source order (a `None` argument is
modelled by the empty string, the only other falsy `str`-typed value). -/
def redact_pii (text : String) : String :=
  if text = "" then ""
  else
    regexSub addrPat "[ADDRESS]"
      (regexSub namePat "[NAME]"
        (regexSub ssnPat "[SSN]"
          (regexSub cardPat "[CARD]"
            (regexSub urlPat "[URL]"
              (regexSub phoneIntlPat "[PHONE]"
                (regexSub phoneParenPat "[PHONE]"
                  (regexSub phoneDashPat "[PHONE]"
                    (regexSub emailPat "[EMAIL]" text))))))))

/-! ### Keyword extractor (classifier.py `extract_keywords`, lines 78-171) -/

/-- Is `n` a prefix of `h` (character-wise)? -/
def listStartsWith : List Char → List Char → Bool
  | [], _ => true
  | _ :: _, [] => false
  | a :: as, b :: bs => a == b && listStartsWith as bs

def isSubList (n : List Char) : List Char → Bool
  | [] => n.isEmpty
  | c :: rest => listStartsWith n (c :: rest) || isSubList n rest

/-- Python substring containment `n in h`. -/
def containsSub (n h : String) : Bool := isSubList n.data h.data

/-- Python `str.strip()` (whitespace on both ends). -/
def pyStrip (s : String) : String :=
  String.mk (((s.data.dropWhile pySpace).reverse.dropWhile pySpace).reverse)

/-- `re.sub(r'<[^>]+>', '', ...)`. -/
def tagPat : RE := rcat [rlit '<', rplus (.cls fun c => !(c == '>')), rlit '>']

/-- `re.sub(r'\s+', ' ', ...)`. -/
def wsPat : RE := rplus (.cls pySpace)

/-- The normalization at the top of `extract_keywords`: strip HTML tags,
collapse whitespace runs, strip. -/
def cleanText (text : String) : String :=
  pyStrip (regexSub wsPat " " (regexSub tagPat "" text))

def urgency_keywords : List String :=
  ["urgent", "asap", "immediate", "emergency", "critical", "deadline",
   "rush", "priority", "time-sensitive", "expedite"]

def financial_keywords : List String :=
  ["invoice", "payment", "bill", "receipt", "refund", "transaction",
   "purchase", "order", "subscription", "charge", "fee", "cost",
   "price", "amount", "total", "balance", "account"]

def meeting_keywords : List String :=
  ["meeting", "call", "appointment", "schedule", "calendar",
   "conference", "zoom", "teams", "webinar", "discussion"]

def work_keywords : List String :=
  ["project", "task", "deliverable", "milestone", "report",
   "presentation", "document", "proposal", "contract", "agreement"]

def personal_keywords : List String :=
  ["family", "friend", "personal", "vacation", "holiday",
   "birthday", "anniversary", "celebration", "party"]

def support_keywords : List String :=
  ["support", "help", "issue", "problem", "error", "bug",
   "ticket", "question", "inquiry", "assistance"]

def all_keywords : List (String × List String) :=
  [("urgency", urgency_keywords), ("financial", financial_keywords),
   ("meeting", meeting_keywords), ("work", work_keywords),
   ("personal", personal_keywords), ("support", support_keywords)]

def action_words : List String :=
  ["review", "approve", "submit", "send", "update", "complete",
   "schedule", "confirm", "cancel", "reschedule", "follow-up",
   "discuss", "decide", "implement", "prepare", "deliver"]

def question_words : List String := ["what", "when", "where", "who", "why", "how"]

def timePatterns : List RE :=
  [rcat [.wb, ralts [rstr "today", rstr "tomorrow", rstr "yesterday"], .wb],
   rcat [.wb, ralts [rstr "monday", rstr "tuesday", rstr "wednesday", rstr "thursday",
                     rstr "friday", rstr "saturday", rstr "sunday"], .wb],
   rcat [.wb, ralts [rstr "january", rstr "february", rstr "march", rstr "april",
                     rstr "may", rstr "june", rstr "july", rstr "august",
                     rstr "september", rstr "october", rstr "november", rstr "december"], .wb],
   rcat [.wb, rbetween 1 2 rdigit, rlit ':', rexact 2 rdigit,
         ropt (.cls pySpace), ropt (ralts [rstr "am", rstr "pm"]), .wb],
   rcat [.wb, rbetween 1 2 rdigit, rlit '/', rbetween 1 2 rdigit, rlit '/',
         rbetween 2 4 rdigit, .wb]]

/-- classifier.py `extract_keywords`.  The Python function ends with
`list(set(found_keywords))`, whose element order is unspecified; the model
deduplicates keeping first occurrences.  No claim below depends on the
order of this list (all consumers treat it as a set). -/
def extract_keywords (text : String) : List String :=
  if text = "" then []
  else
    let t := cleanText text
    let lower := t.toLower
    let catKws := all_keywords.flatMap fun ck =>
      ck.2.filterMap fun k =>
        if containsSub k lower then some (ck.1 ++ ":" ++ k) else none
    let acts := action_words.filterMap fun a =>
      if containsSub a lower then some ("action:" ++ a) else none
    let ques :=
      if containsSub "?" t || question_words.any (fun q => containsSub q lower) then
        ["type:question"]
      else []
    let times :=
      if timePatterns.any (fun p => hasMatch p lower) then ["has_time_reference"] else []
    (catKws ++ acts ++ ques ++ times).dedup

/-! ### Local rule engine (classifier.py `classify_locally`, lines 173-306) -/

structure Classification where
  category : String
  priority : String
  confidence : ℚ
  reasoning : String
deriving DecidableEq

/-- Python `kw.split(':')[-1] if ':' in kw else kw`. -/
def lastSegment (kw : String) : String :=
  if kw.data.contains ':' then (kw.splitOn ":").getLastD "" else kw

/-- Python `kw.split(':')[0]` (for a `kw` containing `:`). -/
def firstSegment (kw : String) : String := (kw.splitOn ":").headD kw

def spam_indicators : List String :=
  ["urgent", "limited time", "act now", "free", "winner", "congratulations",
   "claim", "prize", "offer", "discount", "sale", "deal"]

def financial_indicators : List String :=
  ["invoice", "payment", "bill", "receipt", "transaction", "refund"]

def meeting_indicators : List String :=
  ["meeting", "call", "appointment", "schedule", "calendar", "conference"]

def support_indicators : List String :=
  ["support", "help", "issue", "problem", "error", "bug", "ticket"]

def work_indicators : List String :=
  ["project", "task", "deliverable", "milestone", "report", "proposal"]

def personal_indicators : List String :=
  ["family", "friend", "personal", "vacation", "birthday", "party"]

/-- The ordered decision list of `classify_locally`: one entry per Python
`if cond: return {...}` branch, in source order, as a pair of the branch
condition and the returned classification.  Python's `keyword_set` is a
`set`; intersections are modelled by filtering the (duplicate-free)
indicator lists against membership in `keyword_strings`, which yields the
same intersection cardinality and non-emptiness.  Note that rule 3 tests
membership of the literal strings `"urgency:"` and `"has_time_reference"`
in the raw keyword list, and rule 5 tests membership of the literal
`"urgency:"` among the pre-colon segments — exactly as the Python source
does (rules 3 and 5 never see the bare tag `"urgency"` or a full
`"urgency:<term>"` keyword under those tests).  Rule 7 returns in both of
its sub-branches, so it is one entry whose value carries the inner
conditional. -/
def localRules (keywords : List String) (sender subject : String) :
    List (Bool × Classification) :=
  let ks := keywords.map lastSegment
  [(decide (2 ≤ (spam_indicators.filter (fun w => ks.contains w)).length),
    ⟨"spam", "low", 0.9, "Multiple spam indicators detected"⟩),
   (financial_indicators.any (fun w => ks.contains w),
    ⟨"financial", if ks.contains "urgent" then "high" else "medium", 0.85,
     "Financial keywords detected"⟩),
   (meeting_indicators.any (fun w => ks.contains w),
    ⟨"meetings",
     if ["urgency:", "has_time_reference"].any (fun kw => keywords.contains kw) then "high"
     else "medium",
     0.8, "Meeting/calendar keywords detected"⟩),
   (support_indicators.any (fun w => ks.contains w),
    ⟨"support", if ks.contains "urgent" then "high" else "medium", 0.8,
     "Support/technical keywords detected"⟩),
   (work_indicators.any (fun w => ks.contains w),
    ⟨"work",
     if ((keywords.filter (fun kw => kw.data.contains ':')).map firstSegment).contains
         "urgency:" then "high"
     else "medium",
     0.75, "Work/project keywords detected"⟩),
   (personal_indicators.any (fun w => ks.contains w),
    ⟨"personal", "low", 0.7, "Personal keywords detected"⟩),
   (["noreply", "no-reply", "notification", "support"].any
      (fun sv => containsSub sv sender.toLower),
    if financial_indicators.any (fun w => ks.contains w) then
      ⟨"financial", "medium", 0.8, "Service notification with financial content"⟩
    else
      ⟨"notifications", "low", 0.75, "Automated service notification"⟩),
   (["unsubscribe", "newsletter", "promotion"].any
      (fun w => containsSub w subject.toLower),
    ⟨"promotional", "low", 0.85, "Promotional content in subject"⟩),
   (["urgent", "asap", "immediate"].any (fun w => containsSub w subject.toLower),
    ⟨"urgent", "high", 0.8, "Urgent markers in subject"⟩),
   (decide (2 ≤ (keywords.filter (fun kw => kw.take 7 = "action:")).length)
      || keywords.contains "type:question",
    ⟨"action_required", "medium", 0.75, "Multiple action items or questions detected"⟩)]

/-- classifier.py `classify_locally`: `if not keywords: return None`, then
the ordered decision list of `localRules` where the first rule whose
condition holds wins (this first-match lookup is exactly the Python
`if/elif` return chain), and `None` when no rule fires. -/
def classify_locally (keywords : List String) (sender subject : String) :
    Option Classification :=
  if keywords.isEmpty then none
  else ((localRules keywords sender subject).find? (fun rule => rule.1)).map (fun rule => rule.2)

/-! ### Remote inference adapter (classifier.py `classify_with_openai`,
lines 308-395)

The transport step (`openai_client.chat.completions.create` plus
extraction of `response.choices[0].message.content.strip()`) is modelled
by an `Except String String` outcome argument (`error` = any exception in
the outer `try`, carrying `str(e)`; `ok` = the stripped response text),
and the `json.loads` library call by an
`Except String JObj` valued argument (`error` carries `str(e)` of the
`JSONDecodeError`).  Everything after those two boundaries — the Markdown
code-fence stripping, the required-field validation, the explicit
`ValueError` for missing fields, and both fallback dictionaries — is
translated line by line.  The Lean function is total, which models the
contract that the Python function never lets an exception escape: its two
`except` clauses cover the only raising operations. -/

inductive JVal where
  | str : String → JVal
  | num : ℚ → JVal
deriving DecidableEq

/-- A parsed JSON object, as far as the adapter inspects it: an ordered
association of field names to values. -/
abbrev JObj := List (String × JVal)

def requiredFields : List String := ["category", "priority", "confidence", "reasoning"]

def hasField (obj : JObj) (f : String) : Bool := (obj.map Prod.fst).contains f

/-- The code-fence stripping: `response_text.split("```json")[1].split("```")[0]`
when `"```json"` occurs, else the same with `"```"`, else the text
unchanged.  (When the separator occurs, Python's `split` yields at least
two pieces, so the `[1]` index never faults; `getD` supplies an
unreachable default.) -/
def stripMarkdown (t : String) : String :=
  if containsSub "```json" t then
    (((t.splitOn "```json").getD 1 "").splitOn "```").getD 0 ""
  else if containsSub "```" t then
    (((t.splitOn "```").getD 1 "").splitOn "```").getD 0 ""
  else t

def classify_with_openai (service : Except String String)
    (jsonLoads : String → Except String JObj) : JObj :=
  match service with
  | .error e =>
    [("category", JVal.str "other"), ("priority", JVal.str "medium"),
     ("confidence", JVal.num 0.2),
     ("reasoning", JVal.str ("OpenAI classification failed: " ++ e))]
  | .ok txt =>
    match jsonLoads (stripMarkdown txt) with
    | .error e =>
      [("category", JVal.str "other"), ("priority", JVal.str "medium"),
       ("confidence", JVal.num 0.3),
       ("reasoning", JVal.str ("OpenAI response parsing failed: " ++ e))]
    | .ok obj =>
      if requiredFields.all (fun f => hasField obj f) then obj
      else
        [("category", JVal.str "other"), ("priority", JVal.str "medium"),
         ("confidence", JVal.num 0.3),
         ("reasoning", JVal.str
           ("OpenAI response parsing failed: Missing required fields in OpenAI response"))]

/-! ### Classification orchestrator (classifier.py `classify_email`,
lines 397-432)

The remote adapter is abstracted as a function argument `remote` from the
redacted content and keyword list to the four classification fields the
orchestrator reads from its result.  The outcome record additionally logs
every argument pair passed to `remote` (`remoteCalls`) and whether the
confirmed-by-local-rules merge branch executed (`mergedWithLocal`); these
two ghost fields instrument the embedding and affect nothing else. -/

structure EmailData where
  subject : String
  body : String
  sender : String

structure FinalResult where
  category : String
  priority : String
  confidence : ℚ
  reasoning : String
  method : String
  privacy_protected : Bool
deriving DecidableEq

structure ClassifyOutcome where
  result : FinalResult
  remoteCalls : List (String × List String)
  mergedWithLocal : Bool
deriving DecidableEq

def classify_email (remote : String → List String → Classification) (e : EmailData) :
    ClassifyOutcome :=
  let full := e.subject ++ " " ++ e.body
  let keywords := extract_keywords full
  match classify_locally keywords e.sender e.subject with
  | some r =>
    if (0.7 : ℚ) ≤ r.confidence then
      ⟨⟨r.category, r.priority, r.confidence, r.reasoning, "local_rules", true⟩, [], false⟩
    else
      let redacted := redact_pii full
      let o := remote redacted keywords
      if r.category = o.category then
        ⟨⟨o.category, o.priority, min 1 (o.confidence + 0.1),
          o.reasoning ++ " (confirmed by local rules)", "openai_api", true⟩,
         [(redacted, keywords)], true⟩
      else
        ⟨⟨o.category, o.priority, o.confidence, o.reasoning, "openai_api", true⟩,
         [(redacted, keywords)], false⟩
  | none =>
    let redacted := redact_pii full
    let o := remote redacted keywords
    ⟨⟨o.category, o.priority, o.confidence, o.reasoning, "openai_api", true⟩,
     [(redacted, keywords)], false⟩

/-- The final-output category domain stated by the spec (also the ten
categories enumerated in the prompt built for the remote service). -/
def tenCategories : List String :=
  ["work", "personal", "financial", "promotional", "support", "meetings",
   "notifications", "action_required", "spam", "other"]

/-- A concrete stand-in for the remote adapter, used to instantiate
universally quantified theorems at closed inputs. -/
def dummyRemote : String → List String → Classification :=
  fun _ _ => ⟨"other", "medium", 0.2, "remote fallback"⟩

/-! ### Helper lemmas -/

/-- Every classification literal a branch of `classify_locally` can return
(the priority-conditional rules contribute one entry per branch of their
inner conditional). -/
def localResultPool : List Classification :=
  [⟨"spam", "low", 0.9, "Multiple spam indicators detected"⟩,
   ⟨"financial", "high", 0.85, "Financial keywords detected"⟩,
   ⟨"financial", "medium", 0.85, "Financial keywords detected"⟩,
   ⟨"meetings", "high", 0.8, "Meeting/calendar keywords detected"⟩,
   ⟨"meetings", "medium", 0.8, "Meeting/calendar keywords detected"⟩,
   ⟨"support", "high", 0.8, "Support/technical keywords detected"⟩,
   ⟨"support", "medium", 0.8, "Support/technical keywords detected"⟩,
   ⟨"work", "high", 0.75, "Work/project keywords detected"⟩,
   ⟨"work", "medium", 0.75, "Work/project keywords detected"⟩,
   ⟨"personal", "low", 0.7, "Personal keywords detected"⟩,
   ⟨"financial", "medium", 0.8, "Service notification with financial content"⟩,
   ⟨"notifications", "low", 0.75, "Automated service notification"⟩,
   ⟨"promotional", "low", 0.85, "Promotional content in subject"⟩,
   ⟨"urgent", "high", 0.8, "Urgent markers in subject"⟩,
   ⟨"action_required", "medium", 0.75, "Multiple action items or questions detected"⟩]

theorem localRules_sub_pool (keywords : List String) (sender subject : String) :
    ∀ e ∈ localRules keywords sender subject, e.2 ∈ localResultPool := by
  intro e he
  simp only [localRules, List.mem_cons, List.not_mem_nil, or_false] at he
  rcases he with h | h | h | h | h | h | h | h | h | h <;> subst h <;> dsimp only <;>
    first
      | with_unfolding_all decide
      | (split_ifs <;> with_unfolding_all decide)

theorem classify_locally_mem_pool (keywords : List String) (sender subject : String)
    (r : Classification) (h : classify_locally keywords sender subject = some r) :
    r ∈ localResultPool := by
  unfold classify_locally at h
  split at h
  · exact Option.noConfusion h
  · rw [Option.map_eq_some'] at h
    obtain ⟨e, hf, he⟩ := h
    exact he ▸ localRules_sub_pool keywords sender subject e (List.mem_of_find?_eq_some hf)

theorem pool_conf_ge (x : Classification) (hx : x ∈ localResultPool) :
    (0.7 : ℚ) ≤ x.confidence := by
  revert x hx
  with_unfolding_all decide

theorem pool_cat (x : Classification) (hx : x ∈ localResultPool) :
    x.category ∈ tenCategories ∨ x.category = "urgent" := by
  revert x hx
  with_unfolding_all decide

theorem pool_conf_mem (x : Classification) (hx : x ∈ localResultPool) :
    x.confidence ∈ ([0.9, 0.85, 0.8, 0.75, 0.7] : List ℚ) := by
  revert x hx
  with_unfolding_all decide

/-! ### The claims -/

/-- Claim C1: if `classify_locally` returns a result with confidence at
least 0.7 on the keywords extracted from `subject + " " + body`, then
`classify_email` returns exactly that result tagged `method = local_rules`
and `privacy_protected = true`, performs no call to the remote adapter
(`remoteCalls = []`, so neither the raw nor the redacted text is passed to
it), and does not run the merge branch. -/
theorem claim_C1 (remote : String → List String → Classification) (e : EmailData)
    (r : Classification)
    (h : classify_locally (extract_keywords (e.subject ++ " " ++ e.body)) e.sender e.subject
      = some r)
    (hc : (0.7 : ℚ) ≤ r.confidence) :
    classify_email remote e =
      ⟨⟨r.category, r.priority, r.confidence, r.reasoning, "local_rules", true⟩, [], false⟩ := by
  simp only [classify_email]
  rw [h]
  simp only [if_pos hc]

/-- Witness for C1 at the concrete email `subject = "invoice"`, whose
single extracted keyword fires the financial rule with confidence 0.85. -/
theorem claim_C1_witness :
    classify_email dummyRemote ⟨"invoice", "", ""⟩ =
      ⟨⟨"financial", "medium", 0.85, "Financial keywords detected", "local_rules", true⟩,
       [], false⟩ :=
  claim_C1 dummyRemote ⟨"invoice", "", ""⟩
    ⟨"financial", "medium", 0.85, "Financial keywords detected"⟩
    (by with_unfolding_all decide) (by with_unfolding_all decide)

/-- Claim C2: `classify_with_openai` never fails outward (the model is a
total function of the transport outcome and the JSON-parse outcome), and:
a transport/service failure yields the fallback `{other, medium, 0.2}`
with a reasoning naming the service-call cause; an unparseable response
yields `{other, medium, 0.3}` with a reasoning naming the parse cause; a
parsed response missing any of the four required fields yields
`{other, medium, 0.3}` with the missing-fields cause; and a parsed
response with all four fields is returned as-is. -/
theorem claim_C2 (service : Except String String)
    (jsonLoads : String → Except String JObj) :
    (∀ e, service = .error e →
      classify_with_openai service jsonLoads =
        [("category", JVal.str "other"), ("priority", JVal.str "medium"),
         ("confidence", JVal.num 0.2),
         ("reasoning", JVal.str ("OpenAI classification failed: " ++ e))]) ∧
    (∀ txt e, service = .ok txt → jsonLoads (stripMarkdown txt) = .error e →
      classify_with_openai service jsonLoads =
        [("category", JVal.str "other"), ("priority", JVal.str "medium"),
         ("confidence", JVal.num 0.3),
         ("reasoning", JVal.str ("OpenAI response parsing failed: " ++ e))]) ∧
    (∀ txt obj, service = .ok txt → jsonLoads (stripMarkdown txt) = .ok obj →
      requiredFields.all (fun f => hasField obj f) = false →
      classify_with_openai service jsonLoads =
        [("category", JVal.str "other"), ("priority", JVal.str "medium"),
         ("confidence", JVal.num 0.3),
         ("reasoning", JVal.str
           ("OpenAI response parsing failed: Missing required fields in OpenAI response"))]) ∧
    (∀ txt obj, service = .ok txt → jsonLoads (stripMarkdown txt) = .ok obj →
      requiredFields.all (fun f => hasField obj f) = true →
      classify_with_openai service jsonLoads = obj) := by
  refine ⟨?_, ?_, ?_, ?_⟩
  · intro e he
    subst he
    rfl
  · intro txt e he hp
    subst he
    simp only [classify_with_openai, hp]
  · intro txt obj he hp hf
    subst he
    simp only [classify_with_openai, hp, hf, Bool.false_eq_true, if_false]
  · intro txt obj he hp hf
    subst he
    simp only [classify_with_openai, hp, hf, if_true]

/-- Witness for C2: a concrete transport failure produces the 0.2
fallback with the cause in the reasoning. -/
theorem claim_C2_witness :
    classify_with_openai (Except.error "timeout")
        (fun _ => Except.error "invalid json") =
      [("category", JVal.str "other"), ("priority", JVal.str "medium"),
       ("confidence", JVal.num 0.2),
       ("reasoning", JVal.str "OpenAI classification failed: timeout")] :=
  (claim_C2 (Except.error "timeout") (fun _ => Except.error "invalid json")).1 "timeout" rfl

/-- Counterexample to claim C3 as stated: the email with
`subject = "urgent"` takes the local fast path through rule 8 and the
final category is `"urgent"`, which is not one of the ten categories of
the spec's final-output domain. -/
theorem claim_C3_counterexample :
    (classify_email dummyRemote ⟨"urgent", "", ""⟩).result.category = "urgent" ∧
      "urgent" ∉ tenCategories := by
  with_unfolding_all decide

/-- Claim C3 as amended: provided the remote adapter returns categories in
the ten-value domain, the final category of `classify_email` lies in the
ten-value domain or is the extra local-rule category `"urgent"` (rule 8's
urgent-subject rule, reachable on the fast path, escapes the domain). -/
theorem claim_C3_theorem (remote : String → List String → Classification) (e : EmailData)
    (hrem : ∀ red kws, (remote red kws).category ∈ tenCategories) :
    (classify_email remote e).result.category ∈ tenCategories ∨
      (classify_email remote e).result.category = "urgent" := by
  simp only [classify_email]
  cases h : classify_locally (extract_keywords (e.subject ++ " " ++ e.body)) e.sender
      e.subject with
  | none => exact Or.inl (by simpa using hrem _ _)
  | some r =>
    have hpool := classify_locally_mem_pool _ _ _ _ h
    simp only [if_pos (pool_conf_ge r hpool)]
    simpa using pool_cat r hpool

/-- Witness for the amended C3 at a concrete email and remote adapter. -/
theorem claim_C3_witness :
    (classify_email dummyRemote ⟨"urgent", "", ""⟩).result.category ∈ tenCategories ∨
      (classify_email dummyRemote ⟨"urgent", "", ""⟩).result.category = "urgent" :=
  claim_C3_theorem dummyRemote ⟨"urgent", "", ""⟩
    (fun _ _ => (by decide : "other" ∈ tenCategories))

/-- The subject of the C4 scenario. -/
def promoSubject : String := "50% off — limited time offer, unsubscribe now"

/-- Counterexample to claim C4 as stated: on the scenario input the
keyword extractor finds no keyword at all (its vocabulary contains none of
the marketing terms of the subject), so there are no spam-indicator hits
and `classify_locally` returns `none` rather than the spam
classification. -/
theorem claim_C4_counterexample :
    extract_keywords (promoSubject ++ " ") = [] ∧
      classify_locally (extract_keywords (promoSubject ++ " ")) "" promoSubject = none := by
  with_unfolding_all decide

/-- Claim C4 as amended: on the scenario email the extractor yields no
keywords, no local rule fires, and the email escalates to the remote
adapter (one remote call, `method = "openai_api"`), instead of the claimed
local spam fast path. -/
theorem claim_C4_theorem :
    extract_keywords (promoSubject ++ " ") = [] ∧
      (classify_email dummyRemote ⟨promoSubject, "", ""⟩).result.method = "openai_api" ∧
      (classify_email dummyRemote ⟨promoSubject, "", ""⟩).remoteCalls =
        [(promoSubject ++ " ", [])] := by
  with_unfolding_all decide

/-- Claim C5 (evaluation at the failing inputs): with an urgency-tagged
keyword present alongside a meeting or work indicator, rules 3 and 5
return priority `"medium"`, not `"high"` (the code tests membership of the
literal `"urgency:"`, which no `"urgency:<term>"` keyword satisfies), and
rule 3 returns `"high"` for `has_time_reference` with no urgency keyword
present. -/
theorem claim_C5_code_divergence :
    classify_locally ["urgency:urgent", "meeting:meeting"] "" "urgent meeting" =
      some ⟨"meetings", "medium", 0.8, "Meeting/calendar keywords detected"⟩ ∧
    classify_locally ["urgency:urgent", "work:project"] "" "urgent project" =
      some ⟨"work", "medium", 0.75, "Work/project keywords detected"⟩ ∧
    classify_locally ["meeting:meeting", "has_time_reference"] "" "team sync" =
      some ⟨"meetings", "high", 0.8, "Meeting/calendar keywords detected"⟩ := by
  with_unfolding_all decide

/-- Claim C6: every classification returned by `classify_locally` carries
one of the five literal confidence values 0.9, 0.85, 0.8, 0.75, 0.7. -/
theorem claim_C6 (keywords : List String) (sender subject : String) (r : Classification)
    (h : classify_locally keywords sender subject = some r) :
    r.confidence ∈ ([0.9, 0.85, 0.8, 0.75, 0.7] : List ℚ) :=
  pool_conf_mem r (classify_locally_mem_pool keywords sender subject r h)

/-- Witness for C6: two spam-indicator hits fire rule 1 with confidence
0.9, which is among the five literals. -/
theorem claim_C6_witness :
    (Classification.mk "spam" "low" 0.9 "Multiple spam indicators detected").confidence ∈
      ([0.9, 0.85, 0.8, 0.75, 0.7] : List ℚ) :=
  claim_C6 ["urgency:urgent", "marketing:offer"] "" ""
    ⟨"spam", "low", 0.9, "Multiple spam indicators detected"⟩
    (by with_unfolding_all decide)

/-- Claim C9: every non-`none` result of `classify_locally` has confidence
at least 0.7, so `classify_email` escalates only when the local engine
returned nothing, and the merge branch (confidence boost plus
"(confirmed by local rules)") never executes, for any remote adapter and
any input email. -/
theorem claim_C9 :
    (∀ (keywords : List String) (sender subject : String) (r : Classification),
        classify_locally keywords sender subject = some r → (0.7 : ℚ) ≤ r.confidence) ∧
    (∀ (remote : String → List String → Classification) (e : EmailData),
        (classify_email remote e).mergedWithLocal = false) := by
  constructor
  · intro keywords sender subject r h
    exact pool_conf_ge r (classify_locally_mem_pool keywords sender subject r h)
  · intro remote e
    simp only [classify_email]
    cases h : classify_locally (extract_keywords (e.subject ++ " " ++ e.body)) e.sender
        e.subject with
    | none => rfl
    | some r =>
      simp only [if_pos (pool_conf_ge r (classify_locally_mem_pool _ _ _ _ h))]

/-- Witness for C9 at a concrete firing of the financial rule. -/
theorem claim_C9_witness :
    (0.7 : ℚ) ≤
      (Classification.mk "financial" "medium" 0.85 "Financial keywords detected").confidence :=
  claim_C9.1 ["financial:invoice"] "" ""
    ⟨"financial", "medium", 0.85, "Financial keywords detected"⟩
    (by with_unfolding_all decide)

/-- Claim C10: with an empty keyword list, `classify_locally` returns
`none` immediately, whatever the sender and subject are — the sender-based
and subject-based rules are not reached. -/
theorem claim_C10 : ∀ sender subject : String, classify_locally [] sender subject = none := by
  intro sender subject
  rfl

/-- Claim C7: `redact_pii` maps empty input to the empty string without
error, and on every input it applies exactly the nine substitutions of
`redactRules` — email, the three phone sub-patterns (domestic-dashed,
parenthesized, international), URL, credit card, SSN, honorific+name,
street address — in that fixed sequence, each with its fixed literal
replacement token; concretely, an email address and a dashed phone number
are rewritten to `[EMAIL]` and `[PHONE]`. -/
theorem claim_C7 :
    redact_pii "" = "" ∧
    (∀ t : String,
      redact_pii t = redactRules.foldl (fun s pr => regexSub pr.1 pr.2 s) t) ∧
    redactRules.map Prod.snd =
      ["[EMAIL]", "[PHONE]", "[PHONE]", "[PHONE]", "[URL]", "[CARD]", "[SSN]", "[NAME]",
       "[ADDRESS]"] ∧
    redact_pii "Contact john@x.com or 123-456-7890" = "Contact [EMAIL] or [PHONE]" := by
  refine ⟨rfl, ?_, rfl, by with_unfolding_all decide⟩
  intro t
  by_cases h : t = ""
  · subst h
    simp [redact_pii, redactRules, List.foldl, regexSub_empty]
  · simp [redact_pii, h, redactRules, List.foldl]

/-- Claim C8: `redact_pii` is idempotent on every text whose redacted form
carries no residual match of any of the nine patterns (the no
partial-match-residue hypothesis of the claim), and no replacement token
is itself matched and rewritten by a later pass: each of the seven tokens
is a fixed point of `redact_pii`. -/
theorem claim_C8 :
    (∀ t : String,
      (redactRules.all fun pr => !hasMatch pr.1 (redact_pii t)) = true →
      redact_pii (redact_pii t) = redact_pii t) ∧
    (∀ tok ∈ ["[EMAIL]", "[PHONE]", "[URL]", "[CARD]", "[SSN]", "[NAME]", "[ADDRESS]"],
      redact_pii tok = tok) := by
  constructor
  · intro t h
    have h9 : ∀ pr ∈ redactRules, hasMatch pr.1 (redact_pii t) = false := by
      intro pr hpr
      have := List.all_eq_true.mp h pr hpr
      simpa using this
    by_cases hemp : redact_pii t = ""
    · rw [hemp]
      rfl
    · have e1 := regexSub_of_no_match emailPat "[EMAIL]" (redact_pii t)
        (h9 (emailPat, "[EMAIL]") (by simp [redactRules]))
      have e2 := regexSub_of_no_match phoneDashPat "[PHONE]" (redact_pii t)
        (h9 (phoneDashPat, "[PHONE]") (by simp [redactRules]))
      have e3 := regexSub_of_no_match phoneParenPat "[PHONE]" (redact_pii t)
        (h9 (phoneParenPat, "[PHONE]") (by simp [redactRules]))
      have e4 := regexSub_of_no_match phoneIntlPat "[PHONE]" (redact_pii t)
        (h9 (phoneIntlPat, "[PHONE]") (by simp [redactRules]))
      have e5 := regexSub_of_no_match urlPat "[URL]" (redact_pii t)
        (h9 (urlPat, "[URL]") (by simp [redactRules]))
      have e6 := regexSub_of_no_match cardPat "[CARD]" (redact_pii t)
        (h9 (cardPat, "[CARD]") (by simp [redactRules]))
      have e7 := regexSub_of_no_match ssnPat "[SSN]" (redact_pii t)
        (h9 (ssnPat, "[SSN]") (by simp [redactRules]))
      have e8 := regexSub_of_no_match namePat "[NAME]" (redact_pii t)
        (h9 (namePat, "[NAME]") (by simp [redactRules]))
      have e9 := regexSub_of_no_match addrPat "[ADDRESS]" (redact_pii t)
        (h9 (addrPat, "[ADDRESS]") (by simp [redactRules]))
      conv_lhs => rw [redact_pii]
      rw [if_neg hemp, e1, e2, e3, e4, e5, e6, e7, e8, e9]
  · intro tok htok
    fin_cases htok <;> with_unfolding_all decide

/-- Witness for C8 at a concrete text containing an email address: its
redacted form has no residual pattern match, and re-redacting it is the
identity. -/
theorem claim_C8_witness :
    redact_pii (redact_pii "Mail a@b.co now") = redact_pii "Mail a@b.co now" :=
  claim_C8.1 "Mail a@b.co now" (by with_unfolding_all decide)

end MailMind
